import Mathlib

/-!
Shallow embedding of the gpui3 window core (crates/gpui3/src/window.rs) and
the spec-described collaborators it depends on (entity store, scene, glyph
atlas, layout engine, main-thread dispatcher).

Modelling conventions:
- Rust machine floats (`f32`, `Pixels`) are modelled as rationals.
- `anyhow::Error` is opaque; it is modelled as a `Nat` payload.
- Fallible Rust functions returning `Result<T>` become `Except Err T`
  (threaded with explicit state where the Rust code mutates `self`).
- Panics (e.g. `Option::unwrap` on `None`, a conflicting entity lease) are
  modelled as `Option.none` at the outermost level, distinct from `Err`.
- External collaborators (layout engine, text system, platform window) are
  passed in as explicit function arguments, since the source consumes them
  through capability traits.
-/

namespace Gpui

abbrev EntityId := Nat
abbrev LayoutId := Nat
abbrev WindowId := Nat
abbrev Err := Nat
abbrev Tile := Nat
abbrev Style := Nat
abbrev Pixels := ℚ

/-- A `StackingOrder` is a `SmallVec<[u32; 16]>` of layer orders; push/pop at
the back. Modelled as a list whose last element is the innermost scope. -/
abbrev StackingOrder := List Nat

structure Point where
  x : Pixels
  y : Pixels
  deriving DecidableEq, Repr

structure Size where
  width : Pixels
  height : Pixels
  deriving DecidableEq, Repr

structure Bounds where
  origin : Point
  size : Size
  deriving DecidableEq, Repr

structure Hsla where
  h : ℚ
  s : ℚ
  l : ℚ
  a : ℚ
  deriving DecidableEq, Repr

structure Corners where
  top_left : Pixels
  top_right : Pixels
  bottom_right : Pixels
  bottom_left : Pixels
  deriving DecidableEq, Repr

instance : Inhabited Corners := ⟨⟨0, 0, 0, 0⟩⟩

/-- Resolved layout read back from the layout engine (window.rs, `Layout`). -/
structure Layout where
  order : Nat
  bounds : Bounds
  deriving DecidableEq, Repr

/-- Cache key for rasterized glyphs (window.rs `paint_glyph` builds one). -/
structure GlyphRasterizationParams where
  font_id : Nat
  glyph_id : Nat
  font_size : Pixels
  subpixel_variant : Nat × Nat
  scale_factor : ℚ
  deriving DecidableEq, Repr

/-- A monochrome sprite draw primitive (window.rs lines 209-219). -/
structure MonochromeSprite where
  order : Nat
  bounds : Bounds
  clip_bounds : Bounds
  clip_corner_radii : Corners
  color : Hsla
  tile : Tile
  deriving DecidableEq, Repr

/-- Modelled from the spec: the `Scene` type itself lives outside src/.
Spec §3: an insertion-ordered sequence of draw primitives, each tagged with
the stacking-order path active when it was inserted, plus the frame's scale
factor. -/
structure Scene where
  scale_factor : ℚ
  primitives : List (StackingOrder × MonochromeSprite)
  deriving DecidableEq, Repr

/-- Modelled from the spec: `Scene::insert` appends a primitive tagged with
the given stacking order (spec §3, §4.3 paint_glyph). -/
def Scene.insert (s : Scene) (layer_id : StackingOrder) (sprite : MonochromeSprite) : Scene :=
  { s with primitives := s.primitives ++ [(layer_id, sprite)] }

/-- Modelled from the spec: `Scene::take` removes the finished scene and
resets the window's scene to empty for the next frame, keeping the scale
factor (spec §4.3 draw: "takes the finished Scene out of the Window
(resetting it to empty for the next frame)"). -/
def Scene.take (s : Scene) : Scene × Scene :=
  (s, { scale_factor := s.scale_factor, primitives := [] })

/-- Deferred effects queued by `ViewContext::notify` (window.rs line 374). -/
inductive Effect where
  | notifyEffect (id : EntityId)
  deriving DecidableEq, Repr

/-- Association-list lookup by key. -/
def assocFind {K V : Type} [DecidableEq K] : List (K × V) → K → Option V
  | [], _ => none
  | (k, v) :: rest, key => if k = key then some v else assocFind rest key

/-- Association-list key removal. -/
def eraseKey {K V : Type} [DecidableEq K] : List (K × V) → K → List (K × V)
  | [], _ => []
  | (k, v) :: rest, key => if k = key then eraseKey rest key else (k, v) :: eraseKey rest key

/-- Modelled from the spec: the application-wide entity store lives outside
src/. Spec §2/§4.1: holds typed state behind opaque identities, supports
lease-for-exclusive-update; a leased entity's value is removed from storage
until the lease ends. -/
structure EntityStore (T : Type) where
  values : List (EntityId × T)
  leased : List EntityId
  deriving DecidableEq, Repr

/-- Lookup an entity's stored (non-leased) value. -/
def EntityStore.lookup {T : Type} (es : EntityStore T) (id : EntityId) : Option T :=
  assocFind es.values id

/-- Modelled from the spec: `entities.lease(handle)` (spec §4.1) removes the
entity's current value from storage for exclusive update. A second lease
attempt while one is outstanding, or a lease of an absent entity, is a
fault (`none`). -/
def EntityStore.lease {T : Type} (es : EntityStore T) (id : EntityId) :
    Option (T × EntityStore T) :=
  if es.leased.contains id then none
  else
    match assocFind es.values id with
    | none => none
    | some v => some (v, { values := eraseKey es.values id, leased := id :: es.leased })

/-- Modelled from the spec: `entities.end_lease(entity)` (spec §4.1)
re-inserts the (possibly mutated) value into storage and ends the lease. -/
def EntityStore.end_lease {T : Type} (es : EntityStore T) (id : EntityId) (v : T) :
    EntityStore T :=
  { values := (id, v) :: eraseKey es.values id, leased := es.leased.filter (fun x => x ≠ id) }

/-- Modelled from the spec: weak-handle resolution (spec §3): a `WeakHandle`
resolves through the store by identity; it is alive while the entity exists
(stored or currently leased out). -/
def EntityStore.alive {T : Type} (es : EntityStore T) (id : EntityId) : Bool :=
  (assocFind es.values id).isSome || es.leased.contains id

/-- The combined mutable state reachable from a `WindowContext`: the
application-wide state (`AppContext` fields the claims touch) and one
`Window` (window.rs lines 16-28). `T` is the entity value type, `RV` the
root view type (`AnyView<()>` in the source, opaque here). The `dispatched`
list models the main-thread dispatcher queue: `run_on_main` hands a closure
to the platform dispatcher; for `draw` the only observable is the scene
handed to `platform_window.draw`. -/
structure GState (T RV : Type) where
  entities : EntityStore T
  unit_entity : EntityId
  layout_id_buffer : List LayoutId
  pending_effects : List Effect
  rem_size : Pixels
  content_size : Size
  root_view : Option RV
  current_layer_id : StackingOrder
  scene : Scene
  dirty : Bool
  glyph_atlas : List (GlyphRasterizationParams × Tile)
  dispatched : List Scene
  deriving DecidableEq, Repr

/-- Embeds `WindowContext::notify` (window.rs lines 86-88): sets the dirty flag. -/
def wc_notify {T RV : Type} (s : GState T RV) : GState T RV :=
  { s with dirty := true }

/-- Embeds `ViewContext::notify` (window.rs lines 369-375): calls the window
context's notify, then pushes an `Effect::Notify(entity_id)` onto the
app's pending-effect queue. -/
def vc_notify {T RV : Type} (entity_id : EntityId) (s : GState T RV) : GState T RV :=
  let s := wc_notify s
  { s with pending_effects := s.pending_effects ++ [Effect.notifyEffect entity_id] }

/-- Embeds `WindowContext::stack` (window.rs lines 141-146): push `order` onto the
window's `current_layer_id`, run `f`, pop, return `f`'s result. `SmallVec`
push/pop act on the back of the sequence. -/
def stack {T RV R : Type} (s : GState T RV) (order : Nat)
    (f : GState T RV → GState T RV × R) : GState T RV × R :=
  let s1 := { s with current_layer_id := s.current_layer_id ++ [order] }
  let fr := f s1
  ({ fr.1 with current_layer_id := fr.1.current_layer_id.dropLast }, fr.2)

/-- Embeds `WindowContext::current_layer_id` (window.rs lines 148-150): clone
(snapshot) the current stacking-order stack. -/
def current_layer_id {T RV : Type} (s : GState T RV) : StackingOrder :=
  s.current_layer_id

/-- Embeds `WindowContext::rem_size` (window.rs lines 129-131). -/
def rem_size {T RV : Type} (s : GState T RV) : Pixels :=
  s.rem_size

/-- Embeds `WindowContext::scale_factor` (window.rs lines 125-127). -/
def scale_factor {T RV : Type} (s : GState T RV) : ℚ :=
  s.scene.scale_factor

/-- Embeds `WindowContext::request_layout` (window.rs lines 90-102): clear the
app-wide `layout_id_buffer`, extend it with the children, read the rem
size, then ask the layout engine for a new layout id. The layout engine is
an external collaborator (spec §2, §6), passed as a function. -/
def request_layout {T RV : Type}
    (engine : Style → Pixels → List LayoutId → Except Err LayoutId)
    (s : GState T RV) (style : Style) (children : List LayoutId) :
    GState T RV × Except Err LayoutId :=
  let s := { s with layout_id_buffer := [] }
  let s := { s with layout_id_buffer := s.layout_id_buffer ++ children }
  let rem := rem_size s
  (s, engine style rem s.layout_id_buffer)

/-- Embeds `WindowContext::update_entity` (window.rs lines 270-282): lease the
entity's value out of the store, run the update closure with the value and
a `ViewContext` (i.e. the full mutable state), then end the lease by
re-inserting the value the closure left behind, and return the closure's
result. A failed lease is a fault (`none`). -/
def update_entity {T RV R : Type} (s : GState T RV) (id : EntityId)
    (f : T → GState T RV → T × GState T RV × R) : Option (GState T RV × R) :=
  match s.entities.lease id with
  | none => none
  | some (v, ents) =>
    let out := f v { s with entities := ents }
    some ({ out.2.1 with entities := out.2.1.entities.end_lease id out.1 }, out.2.2)

/-- Modelled from the spec: `SUBPIXEL_VARIANTS` is a crate-level constant
outside src/; the spec (§3) says the sub-pixel bucket components each range
over "a fixed small count". The concrete count does not matter to any
claim; 4 is used here. -/
def SUBPIXEL_VARIANTS : Nat := 4

/-- Rust `f32::fract`: `self - self.trunc()` (truncation toward zero). -/
def rustTrunc (q : ℚ) : ℤ :=
  if 0 ≤ q then ⌊q⌋ else ⌈q⌉

/-- Rust `f32::fract` on the rational model of `f32`. -/
def rustFract (q : ℚ) : ℚ :=
  q - (rustTrunc q : ℚ)

/-- Rust `as u8` cast from a float: saturating conversion of the truncated
value into `0..=255`. -/
def asU8 (q : ℚ) : Nat :=
  (max 0 (min 255 (rustTrunc q))).toNat

/-- Componentwise `Point::scale` (`origin.scale(scale_factor)`). -/
def Point.scale (p : Point) (factor : ℚ) : Point :=
  ⟨p.x * factor, p.y * factor⟩

/-- Componentwise point addition (`glyph_origin + offset`). -/
def Point.add (p q : Point) : Point :=
  ⟨p.x + q.x, p.y + q.y⟩

/-- Embeds `glyph_origin.map(|px| px.floor())`. -/
def Point.floorPt (p : Point) : Point :=
  ⟨(⌊p.x⌋ : ℚ), (⌊p.y⌋ : ℚ)⟩

/-- Modelled from the spec: `Bounds::is_zero` for the glyph ink box lives
outside src/; spec §4.3 calls the branch condition "the ink box is empty
(e.g. whitespace)", i.e. it encloses no area. -/
def Bounds.is_zero (b : Bounds) : Bool :=
  b.size.width = 0 || b.size.height = 0

/-- The text-rasterization collaborator (spec §6): `raster_bounds` returns
the glyph's ink-box bounds, `rasterize_glyph` produces a bitmap tile. -/
structure TextSystem where
  raster_bounds : GlyphRasterizationParams → Except Err Bounds
  rasterize_glyph : GlyphRasterizationParams → Except Err Tile

/-- Modelled from the spec: the glyph atlas's `get_or_insert_with` (spec §6,
§4.3): return the cached tile for the key, or rasterize via the fallback
(which may fail) and cache the new tile on a miss. -/
def atlasGetOrInsertWith (atlas : List (GlyphRasterizationParams × Tile))
    (params : GlyphRasterizationParams)
    (fallback : GlyphRasterizationParams → Except Err Tile) :
    Except Err (Tile × List (GlyphRasterizationParams × Tile)) :=
  match assocFind atlas params with
  | some tile => Except.ok (tile, atlas)
  | none =>
    match fallback params with
    | Except.error e => Except.error e
    | Except.ok tile => Except.ok (tile, atlas ++ [(params, tile)])

/-- The `GlyphRasterizationParams` key `paint_glyph` builds (window.rs
lines 178-190): scale the origin by the window's scale factor and bucket
its fractional part into `SUBPIXEL_VARIANTS` sub-pixel variants per axis
(`fract`, multiply, `floor`, `as u8`). -/
def glyphParams {T RV : Type} (s : GState T RV) (origin : Point)
    (font_id glyph_id : Nat) (font_size : Pixels) : GlyphRasterizationParams :=
  let sf := scale_factor s
  let glyph_origin := origin.scale sf
  let subpixel_variant : Nat × Nat :=
    (asU8 (((rustFract glyph_origin.x * (SUBPIXEL_VARIANTS : ℚ)).floor : ℤ) : ℚ),
     asU8 (((rustFract glyph_origin.y * (SUBPIXEL_VARIANTS : ℚ)).floor : ℤ) : ℚ))
  { font_id := font_id, glyph_id := glyph_id, font_size := font_size,
    subpixel_variant := subpixel_variant, scale_factor := sf }

/-- Embeds `WindowContext::paint_glyph` (window.rs lines 169-222): build the
subpixel-bucketed rasterization key, ask the text system for the ink-box
bounds; on a non-empty ink box, snapshot the current stacking order, fetch
or create the cached tile, and insert one monochrome sprite into the
scene; succeed without touching the scene when the ink box is empty. -/
def paint_glyph {T RV : Type} (ts : TextSystem) (s : GState T RV)
    (origin : Point) (order : Nat) (font_id glyph_id : Nat)
    (font_size : Pixels) (color : Hsla) : GState T RV × Except Err Unit :=
  let sf := scale_factor s
  let glyph_origin := origin.scale sf
  let params := glyphParams s origin font_id glyph_id font_size
  match ts.raster_bounds params with
  | Except.error e => (s, Except.error e)
  | Except.ok raster_bounds =>
    if raster_bounds.is_zero then (s, Except.ok ())
    else
      let layer_id := current_layer_id s
      let offset := raster_bounds.origin
      let glyph_origin := glyph_origin.floorPt.add offset
      let bounds : Bounds := { origin := glyph_origin, size := raster_bounds.size }
      match atlasGetOrInsertWith s.glyph_atlas params ts.rasterize_glyph with
      | Except.error e => (s, Except.error e)
      | Except.ok (tile, atlas) =>
        ({ s with glyph_atlas := atlas,
                  scene := s.scene.insert layer_id
                    { order := order, bounds := bounds, clip_bounds := bounds,
                      clip_corner_radii := default, color := color, tile := tile } },
         Except.ok ())

/-- The fallible collaborator steps `draw` composes (window.rs lines
224-250): the root view's `layout`, the layout engine's `compute_layout`
and `layout`, and the root view's `paint`. Each threads the full mutable
state, as the source's `&mut cx` does. `FS` is the view's frame state. -/
structure DrawCollab (T RV FS : Type) where
  layoutRoot : RV → GState T RV → GState T RV × Except Err (LayoutId × FS)
  computeLayout : LayoutId → Size → GState T RV → GState T RV × Except Err Unit
  layoutGet : LayoutId → GState T RV → GState T RV × Except Err Layout
  paint : RV → Layout → FS → GState T RV → GState T RV × Except Err Unit

/-- The body of the closure `draw` passes to `update_entity` (window.rs
lines 226-249): take the root view out of the window (`unwrap` on an empty
root view is a panic, modelled as `none`), run layout, compute, resolve,
paint; on success restore the root view, take the scene out, dispatch the
main-thread hand-off of the taken scene, and clear the dirty flag. On any
`?`-propagated error the remaining steps are skipped and the error is
returned with the state as the failing step left it. -/
def drawInner {T RV FS : Type} (γ : DrawCollab T RV FS) (s : GState T RV) :
    Option (GState T RV × Except Err Unit) :=
  match s.root_view with
  | none => none
  | some root_view =>
    let s := { s with root_view := none }
    match γ.layoutRoot root_view s with
    | (s, Except.error e) => some (s, Except.error e)
    | (s, Except.ok (root_layout_id, frame_state)) =>
      let available_space := s.content_size
      match γ.computeLayout root_layout_id available_space s with
      | (s, Except.error e) => some (s, Except.error e)
      | (s, Except.ok ()) =>
        match γ.layoutGet root_layout_id s with
        | (s, Except.error e) => some (s, Except.error e)
        | (s, Except.ok layout) =>
          match γ.paint root_view layout frame_state s with
          | (s, Except.error e) => some (s, Except.error e)
          | (s, Except.ok ()) =>
            let s := { s with root_view := some root_view }
            let taken := s.scene.take
            let s := { s with scene := taken.2 }
            let s := { s with dispatched := s.dispatched ++ [taken.1] }
            let s := { s with dirty := false }
            some (s, Except.ok ())

/-- Embeds `WindowContext::draw` (window.rs lines 224-250): runs `drawInner`
inside `update_entity` on the distinguished unit entity; the unit value is
re-inserted (`end_lease`) after the closure returns, whether it returned
`Ok` or `Err`; a panic inside the closure (modelled `none`) propagates. -/
def draw {T RV FS : Type} (γ : DrawCollab T RV FS) (s : GState T RV) :
    Option (GState T RV × Except Err Unit) :=
  match s.entities.lease s.unit_entity with
  | none => none
  | some (u, ents) =>
    match drawInner γ { s with entities := ents } with
    | none => none
    | some (s1, r) =>
      some ({ s1 with entities := s1.entities.end_lease s.unit_entity u }, r)

/-- Modelled from the spec: the application's window table and
`AppContext::update_window` live outside src/. Spec §4.4: the observer
callback "re-enters the owning window"; a missing window is a not-found
outcome rather than a fault. -/
structure World (T RV : Type) where
  windows : List (WindowId × GState T RV)
  deriving DecidableEq

/-- Modelled from the spec: look up a window by id. -/
def World.lookupWin {T RV : Type} (w : World T RV) (id : WindowId) :
    Option (GState T RV) :=
  assocFind w.windows id

/-- Modelled from the spec: write back the window state after an update. -/
def World.setWin {T RV : Type} (w : World T RV) (id : WindowId) (g : GState T RV) :
    World T RV :=
  { windows := (id, g) :: eraseKey w.windows id }

/-- Modelled from the spec: `AppContext::update_window` (spec §4.4, §7):
run `f` against the window's context if the window still exists; a missing
window yields `none` (the source's `Result`, consumed by `unwrap_or`). -/
def update_window {T RV : Type} (w : World T RV) (id : WindowId)
    (f : GState T RV → GState T RV × Bool) : Option (World T RV × Bool) :=
  match w.lookupWin id with
  | none => none
  | some g =>
    let out := f g
    some (w.setWin id out.1, out.2)

/-- The observer callback registered by `ViewContext::observe` (window.rs
lines 356-366): re-enter the owning window; upgrade the observed target's
weak handle; if the target is alive, update the observing entity (a weak
update through the store, `Err` when it cannot be leased) and report
`is_ok`; report `false` when the target or window is gone
(`unwrap_or(false)`). `on_notify` receives the observing entity's value,
the upgraded target handle (its id), and the view context (the state). -/
def observerCallback {T RV : Type} (w : World T RV)
    (window_id : WindowId) (this_id target_id : EntityId)
    (on_notify : T → EntityId → GState T RV → T × GState T RV) :
    World T RV × Bool :=
  match update_window w window_id (fun cx =>
    if cx.entities.alive target_id then
      match update_entity cx this_id (fun v s =>
        let out := on_notify v target_id s
        (out.1, out.2, ())) with
      | some (s1, _) => (s1, true)
      | none => (cx, false)
    else (cx, false)) with
  | some (w1, delivered) => (w1, delivered)
  | none => (w, false)

/-! ## Concrete states for witnesses -/

/-- A concrete window/app state used by witness theorems: one stored entity
(id 0, also the unit entity), one stacking scope open, a nonempty scene. -/
def baseState : GState Nat Unit :=
  { entities := { values := [(0, 0)], leased := [] }
    unit_entity := 0
    layout_id_buffer := []
    pending_effects := []
    rem_size := 16
    content_size := { width := 800, height := 600 }
    root_view := some ()
    current_layer_id := [1]
    scene := { scale_factor := 2, primitives := [] }
    dirty := true
    glyph_atlas := []
    dispatched := [] }

/-! ## Theorems -/

/-- C7: `ViewContext::notify` sets the window's dirty flag to true and
appends exactly one deferred `Effect::Notify` naming the context's entity
to the application's pending-effect queue; nothing else in the state
changes, and in particular no observer callback runs synchronously (the
record equation leaves every other component, and control, untouched). -/
theorem vc_notify_spec {T RV : Type} (entity_id : EntityId) (s : GState T RV) :
    vc_notify entity_id s =
      { s with dirty := true,
               pending_effects := s.pending_effects ++ [Effect.notifyEffect entity_id] } :=
  rfl

/-- C7 witness: `vc_notify` on a concrete state. -/
theorem vc_notify_witness :
    vc_notify 7 (baseState) =
      { baseState with dirty := true,
                       pending_effects := baseState.pending_effects ++ [Effect.notifyEffect 7] } :=
  vc_notify_spec 7 baseState

/-- C9: `request_layout` leaves the application-wide scratch buffer holding
exactly the given children in order (cleared, then refilled), and returns
the layout engine's answer for the style, the window's current rem unit,
and that buffer; the call fails exactly when the engine rejects the
combination (its `Except` value is returned unchanged). -/
theorem request_layout_spec {T RV : Type}
    (engine : Style → Pixels → List LayoutId → Except Err LayoutId)
    (s : GState T RV) (style : Style) (children : List LayoutId) :
    request_layout engine s style children =
      ({ s with layout_id_buffer := children }, engine style s.rem_size children) :=
  rfl

/-- C9 witness: `request_layout` on a concrete state and engine. -/
theorem request_layout_witness :
    request_layout (fun st _rem kids => Except.ok (st + kids.length)) baseState 3 [10, 11] =
      ({ baseState with layout_id_buffer := [10, 11] },
       Except.ok 5) :=
  request_layout_spec (fun st _ kids => Except.ok (st + kids.length)) baseState 3 [10, 11]

/-- C5: `stack(order, f)` runs `f` on the state with `order` pushed onto
the stacking-order stack, returns `f`'s result, and (for any callback that
is itself stacking-balanced, as every nesting of `stack` calls is) leaves
the stacking-order stack equal to its pre-call contents. -/
theorem stack_spec {T RV R : Type} (s : GState T RV) (order : Nat)
    (f : GState T RV → GState T RV × R)
    (hf : ∀ t, ((f t).1).current_layer_id = t.current_layer_id) :
    ((stack s order f).1).current_layer_id = s.current_layer_id ∧
    (stack s order f).2 =
      (f { s with current_layer_id := s.current_layer_id ++ [order] }).2 := by
  refine ⟨?_, rfl⟩
  show (((f { s with current_layer_id := s.current_layer_id ++ [order] }).1).current_layer_id).dropLast = _
  rw [hf]
  exact List.dropLast_concat

/-- C5 witness: a concrete balanced callback restores the stack. -/
theorem stack_witness :
    ((stack baseState 3 (fun t => (t, 42))).1).current_layer_id = baseState.current_layer_id ∧
    (stack baseState 3 (fun t => (t, 42))).2 =
      ((fun (t : GState Nat Unit) => (t, 42))
        { baseState with current_layer_id := baseState.current_layer_id ++ [3] }).2 :=
  stack_spec baseState 3 (fun t => (t, 42)) (fun _ => rfl)

/-- C4: when the entity is present and not leased, `update_entity` leases
its value out of storage, runs `f` with exclusive access to the value and
the full mutable state, re-inserts the value `f` left behind when `f`
returns, and returns `f`'s result; afterwards the stored value for the
handle equals the value `f` left behind. (`f` is total in this embedding,
so every exit path of `f` reaches the re-insertion.) -/
theorem update_entity_spec {T RV R : Type} (s : GState T RV) (id : EntityId) (v : T)
    (f : T → GState T RV → T × GState T RV × R)
    (v1 : T) (s1 : GState T RV) (r : R)
    (hv : s.entities.lookup id = some v)
    (hl : s.entities.leased.contains id = false)
    (hf : f v { s with entities := { values := eraseKey s.entities.values id,
                                     leased := id :: s.entities.leased } } = (v1, s1, r)) :
    update_entity s id f =
      some ({ s1 with entities := s1.entities.end_lease id v1 }, r) ∧
    (s1.entities.end_lease id v1).lookup id = some v1 := by
  have hlease : s.entities.lease id =
      some (v, { values := eraseKey s.entities.values id, leased := id :: s.entities.leased }) := by
    unfold EntityStore.lease
    rw [hl]
    simp only [Bool.false_eq_true, if_false]
    rw [show assocFind s.entities.values id = some v from hv]
  constructor
  · unfold update_entity
    rw [hlease]
    simp only [hf]
  · unfold EntityStore.end_lease EntityStore.lookup
    simp [assocFind]

/-- C4 witness: a concrete update that increments the stored value and
returns the old value; the store afterwards holds the incremented value. -/
theorem update_entity_witness :
    update_entity baseState 0 (fun v st => (v + 1, st, v)) =
      some ({ ({ baseState with
                  entities := { values := eraseKey baseState.entities.values 0,
                                leased := 0 :: baseState.entities.leased } } : GState Nat Unit) with
              entities := ({ baseState with
                  entities := { values := eraseKey baseState.entities.values 0,
                                leased := 0 :: baseState.entities.leased } } :
                    GState Nat Unit).entities.end_lease 0 1 }, 0) ∧
    ((({ baseState with
          entities := { values := eraseKey baseState.entities.values 0,
                        leased := 0 :: baseState.entities.leased } } :
            GState Nat Unit).entities).end_lease 0 1).lookup 0 = some 1 :=
  update_entity_spec baseState 0 0 (fun v st => (v + 1, st, v)) 1
    { baseState with entities := { values := eraseKey baseState.entities.values 0,
                                   leased := 0 :: baseState.entities.leased } }
    0 rfl rfl rfl

/-- C8: the observer callback registered by `observe` is inert without a
fault when anything it needs is gone. If the owning window cannot be found
it returns not-delivered (`false`) and leaves the world unchanged, for
every `on_notify` (so `on_notify` is not invoked). If the window exists
but the observed target is dead, or the observing entity cannot be leased
(it no longer exists), it returns `false` and writes the window back
unchanged, again independently of `on_notify`. `on_notify` runs exactly in
the remaining case — window found, target alive, observing entity
leasable — and then the callback reports delivered (`true`). -/
theorem observe_callback_spec {T RV : Type} (w : World T RV)
    (window_id : WindowId) (this_id target_id : EntityId) :
    (w.lookupWin window_id = none →
      ∀ f, observerCallback w window_id this_id target_id f = (w, false)) ∧
    (∀ g, w.lookupWin window_id = some g →
      (g.entities.alive target_id = false →
        ∀ f, observerCallback w window_id this_id target_id f =
          (w.setWin window_id g, false)) ∧
      (g.entities.lease this_id = none →
        ∀ f, observerCallback w window_id this_id target_id f =
          (w.setWin window_id g, false)) ∧
      (∀ v ents, g.entities.alive target_id = true →
        g.entities.lease this_id = some (v, ents) →
        ∀ f, observerCallback w window_id this_id target_id f =
          (w.setWin window_id
            { (f v target_id { g with entities := ents }).2 with
              entities := (f v target_id { g with entities := ents }).2.entities.end_lease
                this_id (f v target_id { g with entities := ents }).1 },
           true))) := by
  refine ⟨fun hwin f => ?_, fun g hwin => ⟨fun htgt f => ?_, fun hlease f => ?_,
    fun v ents htgt hlease f => ?_⟩⟩
  · unfold observerCallback update_window
    rw [hwin]
  · unfold observerCallback update_window
    rw [hwin]
    simp only [htgt, Bool.false_eq_true, if_false]
  · unfold observerCallback update_window update_entity
    rw [hwin]
    by_cases htgt : g.entities.alive target_id
    · simp only [htgt, if_true, hlease]
    · simp only [htgt, Bool.false_eq_true, if_false]
  · unfold observerCallback update_window update_entity
    rw [hwin]
    simp only [htgt, if_true, hlease]

/-- A concrete one-window world for the C8 witness: window 1 holds
`baseState` (entity 0 stored); entity 5 does not exist. -/
def baseWorld : World Nat Unit :=
  { windows := [(1, baseState)] }

/-- C8 witness: firing the observer against a missing window (id 9) and
against a window whose observing entity (id 5) is gone both report
not-delivered; firing with window 1, live target 0, and observing entity 0
delivers and runs `on_notify`. -/
theorem observe_callback_witness :
    observerCallback baseWorld 9 0 0 (fun v t st => (v + t, st)) = (baseWorld, false) ∧
    observerCallback baseWorld 1 5 0 (fun v t st => (v + t, st)) =
      (baseWorld.setWin 1 baseState, false) ∧
    observerCallback baseWorld 1 0 0 (fun v t st => (v + t, st)) =
      (baseWorld.setWin 1
        { ((fun (v : Nat) (t : Nat) (st : GState Nat Unit) => (v + t, st)) 0 0
            { baseState with entities := { values := [], leased := [0] } }).2 with
          entities := ((fun (v : Nat) (t : Nat) (st : GState Nat Unit) => (v + t, st)) 0 0
            { baseState with entities := { values := [], leased := [0] } }).2.entities.end_lease
              0 ((fun (v : Nat) (t : Nat) (st : GState Nat Unit) => (v + t, st)) 0 0
            { baseState with entities := { values := [], leased := [0] } }).1 },
       true) :=
  ⟨(observe_callback_spec baseWorld 9 0 0).1 rfl (fun v t st => (v + t, st)),
   (((observe_callback_spec baseWorld 1 5 0).2 baseState rfl).2.1) rfl
     (fun v t st => (v + t, st)),
   (((observe_callback_spec baseWorld 1 0 0).2 baseState rfl).2.2) 0
     { values := [], leased := [0] } rfl rfl (fun v t st => (v + t, st))⟩

/-- C6: when the text system reports the glyph's ink-box bounds, an empty
ink box makes `paint_glyph` succeed while leaving the state (in particular
the scene) untouched; a non-empty ink box makes it fetch-or-create the
cached tile and append exactly one monochrome sprite to the scene, tagged
with the stacking-order stack snapshotted at the moment of the call. -/
theorem paint_glyph_spec {T RV : Type} (ts : TextSystem) (s : GState T RV)
    (origin : Point) (order : Nat) (font_id glyph_id : Nat)
    (font_size : Pixels) (color : Hsla) (rb : Bounds)
    (hrb : ts.raster_bounds (glyphParams s origin font_id glyph_id font_size) =
      Except.ok rb) :
    (rb.is_zero = true →
      paint_glyph ts s origin order font_id glyph_id font_size color =
        (s, Except.ok ())) ∧
    (rb.is_zero = false → ∀ tile atlas1,
      atlasGetOrInsertWith s.glyph_atlas
          (glyphParams s origin font_id glyph_id font_size) ts.rasterize_glyph =
        Except.ok (tile, atlas1) →
      paint_glyph ts s origin order font_id glyph_id font_size color =
        ({ s with
            glyph_atlas := atlas1,
            scene := s.scene.insert s.current_layer_id
              { order := order,
                bounds := { origin :=
                              (Point.scale origin s.scene.scale_factor).floorPt.add rb.origin,
                            size := rb.size },
                clip_bounds := { origin :=
                                   (Point.scale origin s.scene.scale_factor).floorPt.add rb.origin,
                                 size := rb.size },
                clip_corner_radii := default, color := color, tile := tile } },
         Except.ok ())) := by
  constructor
  · intro hzero
    simp only [paint_glyph]
    rw [hrb]
    simp only [hzero, if_true]
  · intro hzero tile atlas1 hatlas
    simp only [paint_glyph]
    rw [hrb]
    simp only [hzero, Bool.false_eq_true, if_false, hatlas]
    rfl

/-- A concrete text system for the C6 witness: glyph 1 has an empty ink
box, glyph 2 a 6×10 ink box at offset (1, -2); rasterization yields
tile 77. -/
def witnessTextSystem : TextSystem :=
  { raster_bounds := fun p =>
      if p.glyph_id = 1 then Except.ok { origin := ⟨0, 0⟩, size := ⟨0, 0⟩ }
      else Except.ok { origin := ⟨1, -2⟩, size := ⟨6, 10⟩ }
    rasterize_glyph := fun _ => Except.ok 77 }

/-- C6 witness: painting the whitespace glyph (id 1) leaves the state
untouched and succeeds; painting glyph 2 appends one sprite tagged with
the stacking order `[1]` that was current at the call. -/
theorem paint_glyph_witness :
    paint_glyph witnessTextSystem baseState ⟨10, 20⟩ 4 0 1 12 ⟨0, 0, 0, 1⟩ =
      (baseState, Except.ok ()) ∧
    paint_glyph witnessTextSystem baseState ⟨10, 20⟩ 4 0 2 12 ⟨0, 0, 0, 1⟩ =
      ({ baseState with
          glyph_atlas := [(glyphParams baseState ⟨10, 20⟩ 0 2 12, 77)],
          scene := baseState.scene.insert baseState.current_layer_id
            { order := 4,
              bounds := { origin :=
                            (Point.scale ⟨10, 20⟩ baseState.scene.scale_factor).floorPt.add
                              (⟨1, -2⟩ : Point),
                          size := (⟨6, 10⟩ : Size) },
              clip_bounds := { origin :=
                                 (Point.scale ⟨10, 20⟩ baseState.scene.scale_factor).floorPt.add
                                   (⟨1, -2⟩ : Point),
                               size := (⟨6, 10⟩ : Size) },
              clip_corner_radii := default, color := ⟨0, 0, 0, 1⟩, tile := 77 } },
       Except.ok ()) :=
  ⟨(paint_glyph_spec witnessTextSystem baseState ⟨10, 20⟩ 4 0 1 12 ⟨0, 0, 0, 1⟩
      { origin := ⟨0, 0⟩, size := ⟨0, 0⟩ } rfl).1 rfl,
   (paint_glyph_spec witnessTextSystem baseState ⟨10, 20⟩ 4 0 2 12 ⟨0, 0, 0, 1⟩
      { origin := ⟨1, -2⟩, size := ⟨6, 10⟩ } rfl).2 rfl 77
      [(glyphParams baseState ⟨10, 20⟩ 0 2 12, 77)] rfl⟩

/-- The first collaborator stage of `draw` that fails, together with the
state `se` and error `e` it fails with, starting from the post-take state
`s1` (unit entity leased, root view taken out). Mirrors the `?` operators
at window.rs lines 228, 233, 234 and 236. -/
inductive StageFails {T RV FS : Type} (γ : DrawCollab T RV FS) (root_view : RV)
    (s1 : GState T RV) : GState T RV → Err → Prop
  | layout_request (se : GState T RV) (e : Err)
      (h : γ.layoutRoot root_view s1 = (se, Except.error e)) :
      StageFails γ root_view s1 se e
  | compute (s2 : GState T RV) (lid : LayoutId) (fs : FS) (se : GState T RV) (e : Err)
      (h1 : γ.layoutRoot root_view s1 = (s2, Except.ok (lid, fs)))
      (h2 : γ.computeLayout lid s2.content_size s2 = (se, Except.error e)) :
      StageFails γ root_view s1 se e
  | resolve (s2 s3 : GState T RV) (lid : LayoutId) (fs : FS) (se : GState T RV) (e : Err)
      (h1 : γ.layoutRoot root_view s1 = (s2, Except.ok (lid, fs)))
      (h2 : γ.computeLayout lid s2.content_size s2 = (s3, Except.ok ()))
      (h3 : γ.layoutGet lid s3 = (se, Except.error e)) :
      StageFails γ root_view s1 se e
  | paint_stage (s2 s3 s4 : GState T RV) (lid : LayoutId) (fs : FS) (lay : Layout)
      (se : GState T RV) (e : Err)
      (h1 : γ.layoutRoot root_view s1 = (s2, Except.ok (lid, fs)))
      (h2 : γ.computeLayout lid s2.content_size s2 = (s3, Except.ok ()))
      (h3 : γ.layoutGet lid s3 = (s4, Except.ok lay))
      (h4 : γ.paint root_view lay fs s4 = (se, Except.error e)) :
      StageFails γ root_view s1 se e

/-- On a failing stage, `drawInner` returns that stage's error with the
state exactly as the failing stage left it. -/
theorem drawInner_error {T RV FS : Type} (γ : DrawCollab T RV FS)
    (s : GState T RV) (root_view : RV) (se : GState T RV) (e : Err)
    (hroot : s.root_view = some root_view)
    (hf : StageFails γ root_view { s with root_view := none } se e) :
    drawInner γ s = some (se, Except.error e) := by
  unfold drawInner
  rw [hroot]
  cases hf with
  | layout_request se e h => simp only [h]
  | compute s2 lid fs se e h1 h2 => simp only [h1, h2]
  | resolve s2 s3 lid fs se e h1 h2 h3 => simp only [h1, h2, h3]
  | paint_stage s2 s3 s4 lid fs lay se e h1 h2 h3 h4 => simp only [h1, h2, h3, h4]

/-- C1: when the unit entity can be leased, a root view is present, and
every stage succeeds — the root view's layout from the post-take state,
the layout computation, the root layout resolution, and the paint ending
in state `s5` — `draw` succeeds, and in the state it returns the finished
scene has been taken out of the window (the window's scene is empty, its
scale factor kept), the taken scene has been handed off to the main-thread
dispatcher (appended to `dispatched`), and the dirty flag has been cleared
by the step sequenced after that hand-off. -/
theorem draw_success_spec {T RV FS : Type} (γ : DrawCollab T RV FS) (s : GState T RV)
    (root_view : RV) (u : T) (ents : EntityStore T)
    (s2 s3 s4 s5 : GState T RV) (lid : LayoutId) (fs : FS) (lay : Layout)
    (hlease : s.entities.lease s.unit_entity = some (u, ents))
    (hroot : s.root_view = some root_view)
    (h1 : γ.layoutRoot root_view { s with entities := ents, root_view := none } =
      (s2, Except.ok (lid, fs)))
    (h2 : γ.computeLayout lid s2.content_size s2 = (s3, Except.ok ()))
    (h3 : γ.layoutGet lid s3 = (s4, Except.ok lay))
    (h4 : γ.paint root_view lay fs s4 = (s5, Except.ok ())) :
    draw γ s = some (
      { s5 with
          root_view := some root_view,
          scene := { scale_factor := s5.scene.scale_factor, primitives := [] },
          dispatched := s5.dispatched ++ [s5.scene],
          dirty := false,
          entities := s5.entities.end_lease s.unit_entity u },
      Except.ok ()) := by
  have hinner : drawInner γ { s with entities := ents } = some (
      { s5 with
          root_view := some root_view,
          scene := { scale_factor := s5.scene.scale_factor, primitives := [] },
          dispatched := s5.dispatched ++ [s5.scene],
          dirty := false },
      Except.ok ()) := by
    unfold drawInner
    rw [show ({ s with entities := ents } : GState T RV).root_view = some root_view from hroot]
    simp only [h1, h2, h3, h4, Scene.take]
  unfold draw
  rw [hlease]
  simp only [hinner]

/-- Identity collaborators for the draw witnesses: every stage succeeds
without touching the state. -/
def okCollab : DrawCollab Nat Unit Unit :=
  { layoutRoot := fun _ st => (st, Except.ok (0, ()))
    computeLayout := fun _ _ st => (st, Except.ok ())
    layoutGet := fun _ st => (st, Except.ok { order := 0, bounds := { origin := ⟨0, 0⟩, size := ⟨0, 0⟩ } })
    paint := fun _ _ _ st => (st, Except.ok ()) }

/-- The state of `baseState` after the unit entity is leased and the root
view taken, which the identity collaborators pass through unchanged. -/
def drawnMid : GState Nat Unit :=
  { baseState with entities := { values := [], leased := [0] }, root_view := none }

/-- C1 witness: `draw` with identity collaborators on `baseState` hands
the scene off, empties the window's scene, and clears dirty. -/
theorem draw_success_witness :
    draw okCollab baseState = some (
      { drawnMid with
          root_view := some ()
          scene := { scale_factor := drawnMid.scene.scale_factor, primitives := [] }
          dispatched := drawnMid.dispatched ++ [drawnMid.scene]
          dirty := false
          entities := drawnMid.entities.end_lease baseState.unit_entity 0 },
      Except.ok ()) :=
  draw_success_spec okCollab baseState () 0 { values := [], leased := [0] }
    drawnMid drawnMid drawnMid drawnMid 0 ()
    { order := 0, bounds := { origin := ⟨0, 0⟩, size := ⟨0, 0⟩ } }
    rfl rfl rfl rfl rfl rfl

/-- C2: when the layout request, the layout computation, the root layout
resolution, or the paint step fails (state `se` at the failing stage, with
the dirty flag still set there — no collaborator stage ever clears it, only
`draw` itself does — and nothing dispatched by the stages), `draw` returns
that error to its caller, hands no scene to the platform window during the
pass (the dispatcher queue is exactly as at entry), and the dirty flag is
still true when `draw` returns. -/
theorem draw_error_spec {T RV FS : Type} (γ : DrawCollab T RV FS) (s : GState T RV)
    (root_view : RV) (u : T) (ents : EntityStore T) (se : GState T RV) (e : Err)
    (hlease : s.entities.lease s.unit_entity = some (u, ents))
    (hroot : s.root_view = some root_view)
    (hf : StageFails γ root_view { s with entities := ents, root_view := none } se e)
    (hdirty : se.dirty = true)
    (hdisp : se.dispatched = s.dispatched) :
    draw γ s = some ({ se with entities := se.entities.end_lease s.unit_entity u },
                     Except.error e) ∧
    ({ se with entities := se.entities.end_lease s.unit_entity u } : GState T RV).dirty
      = true ∧
    ({ se with entities := se.entities.end_lease s.unit_entity u } : GState T RV).dispatched
      = s.dispatched := by
  have hinner : drawInner γ { s with entities := ents } = some (se, Except.error e) :=
    drawInner_error γ { s with entities := ents } root_view se e hroot hf
  refine ⟨?_, hdirty, hdisp⟩
  unfold draw
  rw [hlease]
  simp only [hinner]

/-- Collaborators whose layout computation stage fails with error 5. -/
def failCollab : DrawCollab Nat Unit Unit :=
  { layoutRoot := fun _ st => (st, Except.ok (0, ()))
    computeLayout := fun _ _ st => (st, Except.error 5)
    layoutGet := fun _ st => (st, Except.ok { order := 0, bounds := { origin := ⟨0, 0⟩, size := ⟨0, 0⟩ } })
    paint := fun _ _ _ st => (st, Except.ok ()) }

/-- C2 witness: a failing layout computation makes `draw` return error 5,
dispatch nothing, and leave the dirty flag set. -/
theorem draw_error_witness :
    draw failCollab baseState =
      some ({ drawnMid with entities := drawnMid.entities.end_lease baseState.unit_entity 0 },
            Except.error 5) ∧
    ({ drawnMid with entities := drawnMid.entities.end_lease baseState.unit_entity 0 } :
        GState Nat Unit).dirty = true ∧
    ({ drawnMid with entities := drawnMid.entities.end_lease baseState.unit_entity 0 } :
        GState Nat Unit).dispatched = baseState.dispatched :=
  draw_error_spec failCollab baseState () 0 { values := [], leased := [0] } drawnMid 5
    rfl rfl (StageFails.compute drawnMid 0 () drawnMid 5 rfl rfl) rfl rfl

/-- C10: on any failing stage — the root view's layout, the layout
computation, the root layout resolution, or the root view's paint — the
root view taken out at the start of the pass is not restored: provided the
stages themselves leave the window's root view slot empty (in the source
they have no access to put one back), `draw` returns with `root_view`
still `None`. -/
theorem draw_error_root_view_spec {T RV FS : Type} (γ : DrawCollab T RV FS)
    (s : GState T RV) (root_view : RV) (u : T) (ents : EntityStore T)
    (se : GState T RV) (e : Err)
    (hlease : s.entities.lease s.unit_entity = some (u, ents))
    (hroot : s.root_view = some root_view)
    (hf : StageFails γ root_view { s with entities := ents, root_view := none } se e)
    (hrv : se.root_view = none) :
    draw γ s = some ({ se with entities := se.entities.end_lease s.unit_entity u },
                     Except.error e) ∧
    ({ se with entities := se.entities.end_lease s.unit_entity u } : GState T RV).root_view
      = none := by
  have hinner : drawInner γ { s with entities := ents } = some (se, Except.error e) :=
    drawInner_error γ { s with entities := ents } root_view se e hroot hf
  refine ⟨?_, hrv⟩
  unfold draw
  rw [hlease]
  simp only [hinner]

/-- C10 witness: after the failing layout computation, the window's root
view reference is `none` even though `baseState` entered with one. -/
theorem draw_error_root_view_witness :
    draw failCollab baseState =
      some ({ drawnMid with entities := drawnMid.entities.end_lease baseState.unit_entity 0 },
            Except.error 5) ∧
    ({ drawnMid with entities := drawnMid.entities.end_lease baseState.unit_entity 0 } :
        GState Nat Unit).root_view = none :=
  draw_error_root_view_spec failCollab baseState () 0 { values := [], leased := [0] }
    drawnMid 5 rfl rfl (StageFails.compute drawnMid 0 () drawnMid 5 rfl rfl) rfl

/-- Collaborators identical to `okCollab` except that the paint step calls
the embedded `ViewContext::notify` (entity 7), exactly as a root view
whose paint invokes `cx.notify()` would during an in-progress `draw`. -/
def notifyDuringPaintCollab : DrawCollab Nat Unit Unit :=
  { layoutRoot := fun _ st => (st, Except.ok (0, ()))
    computeLayout := fun _ _ st => (st, Except.ok ())
    layoutGet := fun _ st => (st, Except.ok { order := 0, bounds := { origin := ⟨0, 0⟩, size := ⟨0, 0⟩ } })
    paint := fun _ _ _ st => (vc_notify 7 st, Except.ok ()) }

/-- C3: evaluation of the code at the failing input. `notify()` is invoked
during the paint step of `draw()` (its deferred effect is present in the
returned state, proving it ran), `draw()` completes successfully — and the
window's dirty flag is `false`, not `true`: window.rs line 247 assigns
`dirty = false` unconditionally after paint, so the wakeup is lost. -/
theorem draw_notify_lost :
    (draw notifyDuringPaintCollab baseState).map
        (fun p => (p.1.dirty, p.1.pending_effects, p.2.isOk)) =
      some (false, [Effect.notifyEffect 7], true) := by
  decide

end Gpui
